import Mathlib

/-!
Shallow embedding of the wkwebview embedding and bridging layer
(src/embedded_webview/wkwebview/mod.rs): the custom-protocol bridge
(start_task, stop_task, the responder closure), the navigation policy
controller (navigation_policy, navigation_policy_response), the script
injection queue (eval, init), the construction path (window-handle match,
user script installation order, media-capture delegate) and the teardown
order of InnerEmbeddedWebview::drop.
-/

namespace Wry

/-- Events a custom-protocol load task receives from the bridge, in the
order the bridge sends them: the WKURLSchemeTask messages
didReceiveResponse (carrying the status code and the header dictionary
of the NSHTTPURLResponse), didReceiveData (carrying the body bytes) and
didFinish. -/
inductive TaskEvent where
  | didReceiveResponse (status : Nat) (headers : List (String × String))
  | didReceiveData (body : List Nat)
  | didFinish
deriving DecidableEq

/-- Raw data of an intercepted load task, as start_task reads it from the
native NSURLRequest: the HTTP method string, the absolute URI string, the
header fields, and the request body bytes (already drained, whether they
arrived as a contiguous HTTPBody buffer or through HTTPBodyStream). -/
structure RawRequest where
  method : String
  uri : String
  headers : List (String × String)
  body : List Nat
deriving DecidableEq

/-- HTTP token characters, punctuation listed by code point (the digits
and letters are covered by isAlphanum). Models the token table of the
external http crate used by Request::builder. -/
def isTokenChar (c : Char) : Bool :=
  c.isAlphanum ||
    [33, 35, 36, 37, 38, 39, 42, 43, 45, 46, 94, 95, 96, 124, 126].contains c.toNat

/-- Model of the method parser of the external http crate: a method
string is accepted when it is nonempty and made of token characters. -/
def validMethod (m : String) : Bool :=
  !m.isEmpty && m.toList.all isTokenChar

/-- Simplified model of the URI parser of the external http crate: the
empty string and strings containing whitespace or control characters are
rejected. The start_task theorems depend only on whether construction
fails, not on the exact accepted set. -/
def validUri (u : String) : Bool :=
  !u.isEmpty && u.toList.all (fun c => !c.isWhitespace && 32 ≤ c.toNat && c.toNat ≠ 127)

/-- Model of header-name validity in the external http crate (nonempty,
token characters). -/
def validHeaderName (n : String) : Bool :=
  !n.isEmpty && n.toList.all isTokenChar

/-- Model of header-value validity in the external http crate (visible
characters or horizontal tab). -/
def validHeaderValue (v : String) : Bool :=
  v.toList.all (fun c => (32 ≤ c.toNat && c.toNat ≠ 127) || c.toNat = 9)

/-- The generic request construction performed in start_task:
Request::builder().uri(..).method(..), one .header(..) per native header
field, finalized by .body(..). The builder records the first error and
body() returns Err when any part was malformed; the embedding collapses
the Result to an Option. -/
def buildRequest (r : RawRequest) : Option RawRequest :=
  if validUri r.uri && validMethod r.method
      && r.headers.all (fun p => validHeaderName p.1 && validHeaderValue p.2) then
    some r
  else
    none

/-- The respond_with_404 closure in start_task: an NSHTTPURLResponse with
status NOT_FOUND and a null header dictionary is delivered through
didReceiveResponse, then the task is finished through didFinish. -/
def respond_with_404 : List TaskEvent :=
  [TaskEvent.didReceiveResponse 404 [], TaskEvent.didFinish]

/-- Result of one start_task invocation: the task events the bridge
itself produced, whether the host protocol handler was invoked, and the
request handed to it if so (the response of the host is produced later,
through the one-shot responder). -/
structure StartTaskResult where
  events : List TaskEvent
  handlerInvoked : Bool
  handlerRequest : Option RawRequest
deriving DecidableEq

/-- start_task (webView:startURLSchemeTask:): when the protocol
CallbackSlot ivar is non-null, the request data is read and generic
request construction is attempted; on Ok the host handler receives the
request together with the responder, on Err the 404 fallback runs. A
null ivar only logs a warning and produces nothing. -/
def start_task (slotPresent : Bool) (r : RawRequest) : StartTaskResult :=
  if slotPresent then
    match buildRequest r with
    | some req => { events := [], handlerInvoked := true, handlerRequest := some req }
    | none => { events := respond_with_404, handlerInvoked := false, handlerRequest := none }
  else
    { events := [], handlerInvoked := false, handlerRequest := none }

/-- A response supplied by the host protocol handler: status code, header
list and body bytes. The external http crate stores header names
lowercased; multi-valued headers appear as repeated names, in iteration
order. -/
structure HostResponse where
  status : Nat
  headers : List (String × String)
  body : List Nat
deriving DecidableEq

/-- NSMutableDictionary setObject:forKey: on the header dictionary built
by the responder: replace the entry for the key when present, otherwise
append a new entry (keys stay unique). -/
def dictSet : List (String × String) → String → String → List (String × String)
  | [], k, v => [(k, v)]
  | p :: rest, k, v => if p.1 = k then (k, v) :: rest else p :: dictSet rest k v

/-- Lookup of the first entry for a key: models both NSDictionary
objectForKey: (keys are unique there) and HeaderMap get (first value). -/
def headerGet : List (String × String) → String → Option String
  | [], _ => none
  | p :: rest, k => if p.1 = k then some p.2 else headerGet rest k

/-- Value of the last entry for a key in a header list; after the
responder copies every host header into the dictionary in order, the
last occurrence of a key is the one that survives. -/
def lastVal : List (String × String) → String → Option String
  | [], _ => none
  | p :: rest, k =>
    match lastVal rest k with
    | some v => some v
    | none => if p.1 = k then some p.2 else none

/-- Header dictionary built by the responder closure of start_task, in
source order: content-type is set first when the host response carries
one, then content-length is set from the body length, then every host
header is copied in iteration order, each set overwriting any earlier
entry for its key. -/
def responderHeaders (resp : HostResponse) : List (String × String) :=
  resp.headers.foldl (fun d p => dictSet d p.1 p.2)
    (dictSet
      (match headerGet resp.headers "content-type" with
       | some mime => dictSet [] "content-type" mime
       | none => [])
      "content-length" (toString resp.body.length))

/-- Task events produced by one invocation of the responder closure:
deliver the NSHTTPURLResponse (status and the built header dictionary),
deliver the body bytes as a single NSData chunk, then finish the task. -/
def responderEvents (resp : HostResponse) : List TaskEvent :=
  [TaskEvent.didReceiveResponse resp.status (responderHeaders resp),
   TaskEvent.didReceiveData resp.body,
   TaskEvent.didFinish]

/-- The per-task state: the log of everything the bridge has sent to the
native WKURLSchemeTask. The source keeps no per-task stop flag, so the
log is the whole state. -/
structure TaskState where
  events : List TaskEvent
deriving DecidableEq

/-- stop_task (webView:stopURLSchemeTask:): the source body is empty, so
the task state is returned unchanged and no stop is recorded anywhere. -/
def stop_task (s : TaskState) : TaskState := s

/-- Invoking the responder on a task appends the responder events to the


log of the task; the closure consults no stop information. -/
def invokeResponder (s : TaskState) (resp : HostResponse) : TaskState :=
  { events := s.events ++ responderEvents resp }

/-- The handler configuration relevant to navigation policy, taken from
EmbeddedWebViewAttributes: the optional navigation handler, the optional
new-window-request handler, and whether a download-started handler was
supplied. -/
structure NavHandlers where
  navigationHandler : Option (String → Bool)
  newWindowReqHandler : Option (String → Bool)
  downloadStartedPresent : Bool

/-- The condition guarding the navigation ivars in
InnerEmbeddedWebview::new: at least one of the navigation handler, the
new-window handler and the download-started handler is supplied. -/
def anyNavHandler (a : NavHandlers) : Bool :=
  a.navigationHandler.isSome || a.newWindowReqHandler.isSome || a.downloadStartedPresent

/-- The navigation_policy_function ivar: null unless some handler was
supplied; otherwise the boxed closure that dispatches on is_main_frame to
the navigation handler or to the new-window handler, each defaulting to
true when absent. -/
def navigationPolicyFunction (a : NavHandlers) : Option (String → Bool → Bool) :=
  if anyNavHandler a then
    some (fun url isMainFrame =>
      if isMainFrame then
        match a.navigationHandler with
        | some h => h url
        | none => true
      else
        match a.newWindowReqHandler with
        | some h => h url
        | none => true)
  else
    none

/-- The HasDownloadHandler ivar: null unless some handler was supplied;
otherwise a boxed bool recording whether the download-started handler is
present. -/
def hasDownloadHandlerIvar (a : NavHandlers) : Option Bool :=
  if anyNavHandler a then some a.downloadStartedPresent else none

/-- navigation_policy (decidePolicyForNavigationAction): calls the
decision handler with 0 (cancel), 1 (allow) or 2 (download).
should_download is false when the action does not respond to
shouldPerformDownload (macOS before 11.3). -/
def navigation_policy (a : NavHandlers) (canDownload shouldPerformDownload : Bool)
    (url : String) (isMainFrame : Bool) : Nat :=
  let should_download := if canDownload then shouldPerformDownload else false
  if should_download then
    match hasDownloadHandlerIvar a with
    | some hdh => if hdh then 2 else 0
    | none => 0
  else
    match navigationPolicyFunction a with
    | some f => if f url isMainFrame then 1 else 0
    | none => 1

/-- Decision table of the spec (section 4.3), written from the spec
words, to be compared with navigation_policy: download when flagged and a
download handler is registered, cancel when flagged without one; when not
flagged, allow exactly when the frame-appropriate handler returns true or
is not registered. -/
def specNavigationDecision (a : NavHandlers) (downloadFlagged isMainFrame : Bool)
    (url : String) : Nat :=
  if downloadFlagged then
    if a.downloadStartedPresent then 2 else 0
  else if isMainFrame then
    if (a.navigationHandler.map (fun h => h url)).getD true then 1 else 0
  else
    if (a.newWindowReqHandler.map (fun h => h url)).getD true then 1 else 0

/-- navigation_policy_response (decidePolicyForNavigationResponse):
download (2) only when the MIME type cannot be shown and the
HasDownloadHandler ivar is non-null and true; every other path falls
through to allow (1). -/
def navigation_policy_response (a : NavHandlers) (canShowMimeType : Bool) : Nat :=
  if !canShowMimeType then
    match hasDownloadHandlerIvar a with
    | some hdh => if hdh then 2 else 1
    | none => 1
  else
    1

/-- Outcome of one eval call: the script was appended to the pending
buffer (a supplied callback is dropped with it), or it was executed
immediately with or without a wired completion callback. -/
inductive EvalAction where
  | buffered
  | ranWithCallback
  | ranWithoutCallback
deriving DecidableEq

/-- InnerEmbeddedWebview::eval: locks pending_scripts; while the buffer
is Some (still buffering) the source is pushed and the callback is never
used; once the buffer is None the script is evaluated immediately, wiring
the callback into the native completion handler exactly when one was
supplied. Returns the new buffer state and what happened. -/
def eval (pending : Option (List String)) (js : String) (hasCallback : Bool) :
    Option (List String) × EvalAction :=
  match pending with
  | some scripts => (some (scripts ++ [js]), EvalAction.buffered)
  | none =>
    (none, if hasCallback then EvalAction.ranWithCallback else EvalAction.ranWithoutCallback)

/-- The fixed IPC bootstrap script injected by InnerEmbeddedWebview::new
before any host initialization script; braces and quotes of the
JavaScript text are written as character escapes. -/
def ipcBootstrapScript : String :=
  "Object.defineProperty(window, \x27ipc\x27, \x7b\n  value: Object.freeze(\x7bpostMessage: function(s) \x7bwindow.webkit.messageHandlers.ipc.postMessage(s);\x7d\x7d)\n\x7d);"

/-- InnerEmbeddedWebview::init: addUserScript appends one WKUserScript to
the user content controller of the webview configuration. -/
def init (userScripts : List String) (js : String) : List String :=
  userScripts ++ [js]

/-- User scripts installed during construction: the IPC bootstrap script
is installed first, then every host initialization script in order. -/
def installedUserScripts (initializationScripts : List String) : List String :=
  initializationScripts.foldl init (init [] ipcBootstrapScript)

/-- Kinds of raw window handle the constructor can receive, from the
external raw_window_handle crate. -/
inductive RawWindowHandleKind where
  | appKit
  | uiKit
  | win32
  | xlib
  | wayland
  | web
deriving DecidableEq

/-- Outcome of a fallible constructor whose failing arm may also panic:
ok carries the constructed value, err the error of a Result, panicked the
panic message. -/
inductive ConstructOutcome (α : Type) where
  | ok (value : α)
  | err (msg : String)
  | panicked (msg : String)
deriving DecidableEq

/-- Observable state of a successfully constructed widget needed by the
claims: the installed user scripts and the fact that the webview was
added as a subview of the content view of the window. -/
structure EmbeddedWidgetModel where
  userScripts : List String
  addedToViewHierarchy : Bool
deriving DecidableEq

/-- InnerEmbeddedWebview::new: the window handle is matched first; an
AppKit handle proceeds through construction (scripts installed, webview
added as subview), while any other kind hits the unimplemented arm, which
panics with the message "not implemented" before any native object is
allocated or inserted into the view hierarchy. -/
def newEmbeddedWebview (handle : RawWindowHandleKind)
    (initializationScripts : List String) : ConstructOutcome EmbeddedWidgetModel :=
  match handle with
  | RawWindowHandleKind.appKit =>
    ConstructOutcome.ok
      { userScripts := installedUserScripts initializationScripts,
        addedToViewHierarchy := true }
  | _ => ConstructOutcome.panicked "not implemented"

/-- Whether a constructor outcome is an error result. -/
def isErrOutcome {α : Type} : ConstructOutcome α → Bool
  | ConstructOutcome.err _ => true
  | _ => false

/-- request_media_capture_permission on the WebViewUIDelegate: the
decision handler block is called once with 1 (WKPermissionDecisionGrant);
origin, frame and media type are ignored and the delegate class holds no
host handler ivar. Returns the list of decision-handler calls. -/
def request_media_capture_permission (_origin _frame _mediaType : Nat) : List Nat :=
  [1]

/-- Steps of InnerEmbeddedWebview::drop, one constructor per source
statement. -/
inductive TeardownEvent where
  | dropIpcClosure
  | removeScriptMessageHandler
  | dropNavigationPolicyClosure
  | dropPageLoadClosure
  | releaseDownloadDelegate
  | dropProtocolClosure (i : Nat)
  | removeFromSuperview
  | releaseWebview
  | releaseManager
deriving DecidableEq

/-- Which pointers are non-null when drop runs; the protocol_ptrs entries
are created with Box::into_raw and are never null, so a count suffices. -/
structure TeardownConfig where
  ipcHandlerPresent : Bool
  navigationPolicyPresent : Bool
  pageLoadPresent : Bool
  downloadDelegatePresent : Bool
  protocolCount : Nat
deriving DecidableEq

/-- The event sequence of InnerEmbeddedWebview::drop, in source order:
each non-null handler closure is dropped (with the IPC script-message
handler deregistered right after its closure is dropped), the download
delegate is dropped in place, each protocol closure is dropped, and only
then is the webview removed from its superview and the retained webview
and manager references released. -/
def dropSequence (c : TeardownConfig) : List TeardownEvent :=
  (if c.ipcHandlerPresent then
    [TeardownEvent.dropIpcClosure, TeardownEvent.removeScriptMessageHandler] else []) ++
  (if c.navigationPolicyPresent then [TeardownEvent.dropNavigationPolicyClosure] else []) ++
  (if c.pageLoadPresent then [TeardownEvent.dropPageLoadClosure] else []) ++
  (if c.downloadDelegatePresent then [TeardownEvent.releaseDownloadDelegate] else []) ++
  (List.range c.protocolCount).map TeardownEvent.dropProtocolClosure ++
  [TeardownEvent.removeFromSuperview, TeardownEvent.releaseWebview,
   TeardownEvent.releaseManager]

/-- Teardown steps that deallocate a bridged closure; the download
delegate drop releases the delegate object holding the download
closures. -/
def isClosureDealloc : TeardownEvent → Bool
  | TeardownEvent.dropIpcClosure => true
  | TeardownEvent.dropNavigationPolicyClosure => true
  | TeardownEvent.dropPageLoadClosure => true
  | TeardownEvent.releaseDownloadDelegate => true
  | TeardownEvent.dropProtocolClosure _ => true
  | _ => false

/-- Setting a key in the dictionary then looking a key up yields the new
value for that key and leaves every other key unaffected. -/
theorem headerGet_dictSet (d : List (String × String)) (k v k2 : String) :
    headerGet (dictSet d k v) k2 = if k2 = k then some v else headerGet d k2 := by
  induction d with
  | nil =>
    by_cases h : k2 = k
    · subst h; simp [dictSet, headerGet]
    · simp [dictSet, headerGet, h, Ne.symm h]
  | cons p rest ih =>
    by_cases hpk : p.1 = k
    · by_cases h : k2 = k
      · subst h; simp [dictSet, headerGet, hpk]
      · have hp2 : p.1 ≠ k2 := by rw [hpk]; exact Ne.symm h
        simp [dictSet, headerGet, hpk, h, Ne.symm h, hp2]
    · by_cases h : k2 = k
      · subst h
        simp [dictSet, headerGet, hpk, ih, Ne.symm hpk]
      · by_cases hp2 : p.1 = k2
        · simp [dictSet, headerGet, hpk, h, hp2]
        · simp [dictSet, headerGet, hpk, hp2, ih, h]

/-- Copying a header list into the dictionary by repeated sets makes the
last occurrence of each key win; keys not in the list keep their prior
value. -/
theorem headerGet_foldl (hs : List (String × String)) (d : List (String × String))
    (k : String) :
    headerGet (hs.foldl (fun acc p => dictSet acc p.1 p.2) d) k
      = match lastVal hs k with
        | some v => some v
        | none => headerGet d k := by
  induction hs generalizing d with
  | nil => simp [lastVal]
  | cons p rest ih =>
    simp only [List.foldl_cons]
    rw [ih]
    cases hlv : lastVal rest k with
    | some v => simp [lastVal, hlv]
    | none =>
      simp only [lastVal, hlv]
      rw [headerGet_dictSet]
      by_cases h : k = p.1
      · simp [h]
      · simp [h, Ne.symm h]

/-- A key with no last occurrence in a header list has no first
occurrence either. -/
theorem headerGet_eq_none_of_lastVal_none (hs : List (String × String)) (k : String)
    (h : lastVal hs k = none) : headerGet hs k = none := by
  induction hs with
  | nil => simp [headerGet]
  | cons p rest ih =>
    simp only [lastVal] at h
    cases hlv : lastVal rest k with
    | some v => rw [hlv] at h; simp at h
    | none =>
      rw [hlv] at h
      simp only at h
      by_cases hp : p.1 = k
      · rw [if_pos hp] at h; simp at h
      · simp [headerGet, hp, ih hlv]

/-- Full characterization of the header dictionary the responder builds:
a key present among the host headers ends up with the last host value;
otherwise content-length carries the body length and every other key is
absent. -/
theorem responderHeaders_lookup (resp : HostResponse) (k : String) :
    headerGet (responderHeaders resp) k
      = match lastVal resp.headers k with
        | some v => some v
        | none =>
          if k = "content-length" then some (toString resp.body.length) else none := by
  unfold responderHeaders
  rw [headerGet_foldl]
  cases hlv : lastVal resp.headers k with
  | some v => simp
  | none =>
    simp only
    rw [headerGet_dictSet]
    by_cases hk : k = "content-length"
    · simp [hk]
    · rw [if_neg hk, if_neg hk]
      cases hct : headerGet resp.headers "content-type" with
      | none => simp [headerGet]
      | some m =>
        rw [headerGet_dictSet]
        by_cases hkt : k = "content-type"
        · subst hkt
          rw [headerGet_eq_none_of_lastVal_none _ _ hlv] at hct
          simp at hct
        · simp [hkt, headerGet]

/-- Folding init over a script list appends the scripts in order. -/
theorem foldl_init_eq_append (scripts l : List String) :
    scripts.foldl init l = l ++ scripts := by
  induction scripts generalizing l with
  | nil => simp
  | cons s rest ih => simp [List.foldl_cons, init, ih]

/-- Claim C1 counterexample: with every handler present and one protocol
handler, the very first teardown step of InnerEmbeddedWebview::drop is
already a closure deallocation (the IPC closure, at index 0) while the
removal from the view hierarchy happens only at index 6 — so neither the
remove-from-view-hierarchy step nor the deregistration steps precede
every closure deallocation. -/
theorem dropSequence_dealloc_before_removal :
    (dropSequence ⟨true, true, true, true, 1⟩).head?
      = some TeardownEvent.dropIpcClosure ∧
    isClosureDealloc TeardownEvent.dropIpcClosure = true ∧
    (dropSequence ⟨true, true, true, true, 1⟩).findIdx
        (fun e => decide (e = TeardownEvent.removeFromSuperview)) = 6 := by
  decide

/-- Claim C1 amended: teardown ends with the removal from the view
hierarchy followed by the native releases, and everything before that
point is a closure deallocation or the IPC deregistration — that is,
every bridged closure is released before the widget is removed from its
parent container, and the IPC deregistration immediately follows the IPC
closure deallocation rather than preceding it. -/
theorem dropSequence_order (c : TeardownConfig) :
    ∃ pre,
      dropSequence c = pre ++ [TeardownEvent.removeFromSuperview,
        TeardownEvent.releaseWebview, TeardownEvent.releaseManager] ∧
      pre.all (fun e => isClosureDealloc e
        || decide (e = TeardownEvent.removeScriptMessageHandler)) = true ∧
      (c.ipcHandlerPresent = true →
        (dropSequence c).take 2
          = [TeardownEvent.dropIpcClosure, TeardownEvent.removeScriptMessageHandler]) := by
  rcases c with ⟨ipc, nav, pl, dl, n⟩
  refine ⟨(if ipc then [TeardownEvent.dropIpcClosure,
      TeardownEvent.removeScriptMessageHandler] else []) ++
    ((if nav then [TeardownEvent.dropNavigationPolicyClosure] else []) ++
    ((if pl then [TeardownEvent.dropPageLoadClosure] else []) ++
    ((if dl then [TeardownEvent.releaseDownloadDelegate] else []) ++
    (List.range n).map TeardownEvent.dropProtocolClosure))), ?_, ?_, ?_⟩
  · simp [dropSequence, List.append_assoc]
  · cases ipc <;> cases nav <;> cases pl <;> cases dl <;>
      simp [isClosureDealloc, List.all_map, Function.comp]
  · intro hipc
    subst hipc
    simp [dropSequence]

/-- Witness for dropSequence_order at a configuration with every handler
present and two protocol handlers. -/
theorem dropSequence_order_witness :
    ∃ pre,
      dropSequence ⟨true, true, true, true, 2⟩ = pre ++ [TeardownEvent.removeFromSuperview,
        TeardownEvent.releaseWebview, TeardownEvent.releaseManager] ∧
      pre.all (fun e => isClosureDealloc e
        || decide (e = TeardownEvent.removeScriptMessageHandler)) = true ∧
      ((⟨true, true, true, true, 2⟩ : TeardownConfig).ipcHandlerPresent = true →
        (dropSequence ⟨true, true, true, true, 2⟩).take 2
          = [TeardownEvent.dropIpcClosure, TeardownEvent.removeScriptMessageHandler]) :=
  dropSequence_order ⟨true, true, true, true, 2⟩

/-- Claim C2: when generic request construction fails for an intercepted
task (malformed method, URI or header field), start_task delivers the
not-found response through didReceiveResponse followed by didFinish and
never invokes the host protocol handler for that task. -/
theorem start_task_malformed_404 (r : RawRequest) (h : buildRequest r = none) :
    (start_task true r).events
      = [TaskEvent.didReceiveResponse 404 [], TaskEvent.didFinish] ∧
    (start_task true r).handlerInvoked = false := by
  simp [start_task, h, respond_with_404]

/-- Witness for start_task_malformed_404 at an empty (hence malformed)
method string. -/
theorem start_task_malformed_404_witness :
    (start_task true ⟨"", "app:hello", [], []⟩).events
      = [TaskEvent.didReceiveResponse 404 [], TaskEvent.didFinish] ∧
    (start_task true ⟨"", "app:hello", [], []⟩).handlerInvoked = false :=
  start_task_malformed_404 ⟨"", "app:hello", [], []⟩ (by decide)

/-- Claim C3 counterexample: a host response with body length 5 but a
content-length header of 999 ends up with content-length 999 in the
native header dictionary, because the host-header copy loop runs after
the body-length value is set and overwrites it. -/
theorem responderHeaders_content_length_overwritten :
    headerGet (responderHeaders ⟨200, [("content-length", "999")],
      [104, 101, 108, 108, 111]⟩) "content-length" = some "999" ∧
    headerGet (responderHeaders ⟨200, [("content-length", "999")],
      [104, 101, 108, 108, 111]⟩) "content-length" ≠ some "5" := by
  decide

/-- Claim C3 amended: the responder sets content-length from the body
length, but the later copy of the host headers overwrites it, so the
body-length value stands exactly when the host supplied no
content-length header of its own; content-type is taken from the host
content-type header when present. -/
theorem responder_header_values (resp : HostResponse)
    (h : lastVal resp.headers "content-length" = none) :
    headerGet (responderHeaders resp) "content-length"
      = some (toString resp.body.length) ∧
    ∀ v, lastVal resp.headers "content-type" = some v →
      headerGet (responderHeaders resp) "content-type" = some v := by
  constructor
  · rw [responderHeaders_lookup, h]
    simp
  · intro v hv
    rw [responderHeaders_lookup, hv]

/-- Witness for responder_header_values: a body of length 2 and a host
content-type header, with no host content-length header. -/
theorem responder_header_values_witness :
    headerGet (responderHeaders ⟨200, [("content-type", "text/plain")], [104, 105]⟩)
      "content-length" = some "2" ∧
    headerGet (responderHeaders ⟨200, [("content-type", "text/plain")], [104, 105]⟩)
      "content-type" = some "text/plain" := by
  have h := responder_header_values
    ⟨200, [("content-type", "text/plain")], [104, 105]⟩ (by decide)
  exact ⟨h.1.trans (by decide), h.2 "text/plain" (by decide)⟩

/-- Claim C4 counterexample: stop_task leaves the task state unchanged
(its source body is empty, nothing records the stop) and a responder
invoked afterwards still performs didReceiveResponse, didReceiveData and
didFinish on the stopped task — it is not a no-op. -/
theorem invokeResponder_after_stop_not_noop :
    (invokeResponder (stop_task { events := [] })
        { status := 200, headers := [], body := [] }).events
      = [TaskEvent.didReceiveResponse 200 [("content-length", "0")],
         TaskEvent.didReceiveData [], TaskEvent.didFinish] := by
  decide

/-- Claim C4 amended: the bridge ignores the native stop signal entirely
— stop_task changes nothing — so a responder invoked after a stop behaves
exactly as one invoked without it: it does not fault, but it still
performs the response, data and finish calls on the stopped task. -/
theorem stop_task_ignored (s : TaskState) (resp : HostResponse) :
    stop_task s = s ∧ invokeResponder (stop_task s) resp = invokeResponder s resp :=
  ⟨rfl, rfl⟩

/-- Claim C5: navigation_policy realizes the spec decision table, the
download flag being shouldPerformDownload when the action supports that
selector and false otherwise: download when flagged with a registered
download-started handler, cancel when flagged without one; otherwise
allow exactly when the frame-appropriate host handler returns true or is
not registered. -/
theorem navigation_policy_matches_table (a : NavHandlers)
    (canDownload shouldPerformDownload isMainFrame : Bool) (url : String) :
    navigation_policy a canDownload shouldPerformDownload url isMainFrame
      = specNavigationDecision a (canDownload && shouldPerformDownload) isMainFrame url := by
  rcases a with ⟨nav, neww, dls⟩
  cases nav <;> cases neww <;> cases dls <;> cases canDownload <;>
    cases shouldPerformDownload <;> cases isMainFrame <;>
    simp [navigation_policy, specNavigationDecision, navigationPolicyFunction,
      hasDownloadHandlerIvar, anyNavHandler]

/-- Claim C6: while the pending buffer exists, eval appends the script to
the buffer in order and the buffered action carries no callback (a
supplied callback is dropped and never fires); once the buffer is gone,
eval leaves the buffer absent and runs the script immediately, wiring the
callback exactly when one was supplied. -/
theorem eval_buffering_and_flushed (buf : List String) (js : String) (hasCallback : Bool) :
    eval (some buf) js hasCallback = (some (buf ++ [js]), EvalAction.buffered) ∧
    eval none js hasCallback
      = (none, if hasCallback then EvalAction.ranWithCallback
               else EvalAction.ranWithoutCallback) :=
  ⟨rfl, rfl⟩

/-- Claim C7: for every list of host initialization scripts, the
installed user scripts are the IPC bootstrap script first and then the
host scripts in order, so the bootstrap script strictly precedes every
host-supplied initialization script. -/
theorem bootstrap_script_first (initializationScripts : List String) :
    installedUserScripts initializationScripts
      = ipcBootstrapScript :: initializationScripts := by
  simp [installedUserScripts, foldl_init_eq_append, init]

/-- Claim C8: the navigation-response decision is download exactly when
the MIME type cannot be shown and a download-started handler is
registered; in every other case it is allow. -/
theorem navigation_policy_response_table (a : NavHandlers) (canShowMimeType : Bool) :
    navigation_policy_response a canShowMimeType
      = if !canShowMimeType && a.downloadStartedPresent then 2 else 1 := by
  rcases a with ⟨nav, neww, dls⟩
  cases nav <;> cases neww <;> cases dls <;> cases canShowMimeType <;>
    simp [navigation_policy_response, hasDownloadHandlerIvar, anyNavHandler]

/-- Claim C9 counterexample: an X11 window handle makes the constructor
panic through the unimplemented arm instead of returning an error
result. -/
theorem newEmbeddedWebview_unsupported_panics :
    newEmbeddedWebview RawWindowHandleKind.xlib []
      = ConstructOutcome.panicked "not implemented" ∧
    isErrOutcome (newEmbeddedWebview RawWindowHandleKind.xlib []) = false := by
  decide

/-- Claim C9 amended: constructing with an unsupported window-handle kind
is fatal as a panic (the unimplemented macro), not as an error result;
no partial widget is produced or inserted, since the outcome carries no
widget value and the handle is matched before any allocation or
view-hierarchy insertion. -/
theorem newEmbeddedWebview_unsupported (handle : RawWindowHandleKind)
    (scripts : List String) (h : handle ≠ RawWindowHandleKind.appKit) :
    newEmbeddedWebview handle scripts = ConstructOutcome.panicked "not implemented" := by
  cases handle <;> first | exact absurd rfl h | rfl

/-- Witness for newEmbeddedWebview_unsupported at a Wayland handle. -/
theorem newEmbeddedWebview_unsupported_witness :
    newEmbeddedWebview RawWindowHandleKind.wayland ["a"]
      = ConstructOutcome.panicked "not implemented" :=
  newEmbeddedWebview_unsupported _ _ (by decide)

/-- Claim C10: the media-capture permission delegate calls the decision
handler exactly once with the grant value 1, for every origin, frame and
media type, consulting no host handler. -/
theorem media_capture_always_granted (origin frame mediaType : Nat) :
    request_media_capture_permission origin frame mediaType = [1] :=
  rfl

end Wry
